import Mathlib

/-!
Shallow embedding of the `gh-flush` notification pipeline
(`src/internal/client/client.go`, `src/internal/client/types.go`).

Go channels are modelled by their recorded capacities (for the allocation
claims) and by list processing (for the per-item pipeline stages); the
GitHub REST service is modelled as pure functions supplied as parameters:
a list of paginated responses for the fetcher, and a `String → PullRequest`
detail lookup for the enrichment stage.  Machine `int` values become `Int`.
-/

namespace GhFlush

/-- The anonymous `Repository` struct embedded in `Notification` (types.go). -/
structure Repository where
  FullName : String
deriving DecidableEq

/-- The anonymous `Subject` struct embedded in `Notification` (types.go).
The Go field `Type` is a Lean keyword, so it is rendered `type\x27`. -/
structure Subject where
  Title : String
  Url : String
  type' : String
deriving DecidableEq

/-- `Notification` from types.go. -/
structure Notification where
  Id : String
  Reason : String
  Url : String
  Unread : Bool
  UpdatedAt : String
  Repository : GhFlush.Repository
  Subject : GhFlush.Subject
deriving DecidableEq

/-- The anonymous `User` struct embedded in `PullRequest` (types.go);
`Type` is rendered `type\x27`. -/
structure PRUser where
  Login : String
  type' : String
deriving DecidableEq

/-- `PullRequest` from types.go. -/
structure PullRequest where
  State : String
  User : PRUser
deriving DecidableEq

/-- `NotificationResult` from types.go.  The Go field `PR *PullRequest`
(nil until the enrichment stage fetches a detail) becomes an `Option`. -/
structure NotificationResult where
  Notification : GhFlush.Notification
  PR : Option PullRequest := none
  Deleted : Bool := false
  Read : Bool := false
  BotPR : Bool := false
  ClosedPR : Bool := false
deriving DecidableEq

/-- `Options` from types.go (Go `int` fields become `Int`). -/
structure Options where
  SkipPRsFromBots : Bool
  SkipClosedPRs : Bool
  SkipReadNotifications : Bool
  DryRun : Bool
  NumWorkers : Int
  HaltAfter : Int
deriving DecidableEq

/-- The capacities of the three channels allocated by `NewClient`
(client.go lines 25-34): `input`, `statuses` and `results`.  A Go channel
`make(chan T, k)` is a bounded queue of capacity `k`; `make(chan T)` is
unbuffered, capacity `0`. -/
structure ClientQueues where
  inputCap : Int
  statusesCap : Int
  resultsCap : Int
deriving DecidableEq

/-- `NewClient` (client.go): `input := make(chan Notification, opts.NumWorkers)`,
`statuses := make(chan NotificationResult, opts.NumWorkers)`,
`results := make(chan NotificationResult)` (no capacity argument). -/
def NewClient (opts : Options) : ClientQueues :=
  { inputCap := opts.NumWorkers
    statusesCap := opts.NumWorkers
    resultsCap := 0 }

/-- One HTTP response of the paginated `LIST notifications` endpoint:
its decoded notification batch and its `Link` header, the latter already
split by the regular expression into the `(url, rel)` pairs it matches. -/
structure Response where
  batch : List Notification
  links : List (String × String)
deriving DecidableEq

/-- `findNextPage` (client.go lines 105-112): scan the link matches for the
first one whose `rel` is `next`, returning its url and `true`;
otherwise return `("", false)`. -/
def findNextPage : List (String × String) → String × Bool
  | [] => ("", false)
  | (url, rel) :: rest => if rel = "next" then (url, true) else findNextPage rest

/-- The inner `for _, notification := range notificationBatch` loop of
`FetchNotifications` (client.go lines 82-95): thread the `readStreak`
counter through one batch, returning the accepted notifications, the final
streak, and whether `break loadNotifications` fired.  An unread notification
resets the streak to `0` and is accepted; a read one increments the streak
and, when `HaltAfter > 0 && readStreak >= HaltAfter`, halts *before* the
`append`, so the halting notification is discarded. -/
def processBatch (haltAfter : Int) : Int → List Notification → List Notification × Int × Bool
  | streak, [] => ([], streak, false)
  | streak, n :: rest =>
    if n.Unread then
      let r := processBatch haltAfter 0 rest
      (n :: r.1, r.2)
    else
      if haltAfter > 0 ∧ streak + 1 ≥ haltAfter then
        ([], streak + 1, true)
      else
        let r := processBatch haltAfter (streak + 1) rest
        (n :: r.1, r.2)

/-- The outer `loadNotifications` loop of `FetchNotifications` (client.go
lines 67-99) over the successive responses the service returns along the
chain of next-page links: process a batch; stop if the halt fired, else
follow the `rel="next"` link to the next response, stopping when there is
none. -/
def fetchGo (haltAfter : Int) : Int → List Response → List Notification
  | _, [] => []
  | streak, r :: rest =>
    let b := processBatch haltAfter streak r.batch
    if b.2.2 then b.1
    else if (findNextPage r.links).2 then b.1 ++ fetchGo haltAfter b.2.1 rest
    else b.1

/-- `FetchNotifications` (client.go): `readStreak := 0` then the paginated
loop; the accepted notifications become `client.notifications`. -/
def FetchNotifications (opts : Options) (pages : List Response) : List Notification :=
  fetchGo opts.HaltAfter 0 pages

/-- The prefix of the response chain the loop can ever reach: every
response up to and including the first one carrying no `rel="next"` link. -/
def followedPages : List Response → List Response
  | [] => []
  | r :: rest => if (findNextPage r.links).2 then r :: followedPages rest else [r]

/-- `read` (client.go line 172). -/
def read (notification : Notification) : Bool :=
  !notification.Unread

/-- `from_a_bot` (client.go line 175). -/
def from_a_bot (pullRequest : PullRequest) : Bool :=
  pullRequest.User.type' = "Bot"

/-- `closedPR` (client.go line 179). -/
def closedPR (pullRequest : PullRequest) : Bool :=
  pullRequest.State = "closed"

/-- The loop body of `tagNotifications` (client.go lines 143-170) for one
notification, with the `ghApiClient.Get` detail lookup abstracted as the
pure function `prService`.  Returns the emitted `NotificationResult`
together with a flag recording whether a detail fetch was performed. -/
def tagNotification (opts : Options) (prService : String → PullRequest)
    (notification : Notification) : NotificationResult × Bool :=
  let result : NotificationResult := { Notification := notification }
  let result :=
    if !notification.Unread && !opts.SkipReadNotifications then
      { result with Read := true }
    else result
  if notification.Subject.type' = "PullRequest" then
    let pr := prService notification.Subject.Url
    ({ result with PR := some pr, BotPR := from_a_bot pr, ClosedPR := closedPR pr }, true)
  else
    (result, false)

/-- The loop body of `deleteNotifications` (client.go lines 182-209) for one
status, with the `ghApiClient.Delete` call abstracted: returns the emitted
`NotificationResult` together with a flag recording whether a delete call
was issued (`status.Deleted && !opts.DryRun`). -/
def deleteNotification (opts : Options) (status : NotificationResult) :
    NotificationResult × Bool :=
  let status :=
    if status.BotPR && !opts.SkipPRsFromBots then { status with Deleted := true } else status
  let status :=
    if status.ClosedPR && !opts.SkipClosedPRs then { status with Deleted := true } else status
  let status :=
    if status.Read && !opts.SkipReadNotifications then { status with Deleted := true } else status
  (status, status.Deleted && !opts.DryRun)

/-- Comparison variant of `deleteNotification` whose read clause omits the
`!opts.SkipReadNotifications` guard; it exists only to state that on
pipeline-produced results the guard is redundant. -/
def deleteNotificationUnguardedRead (opts : Options) (status : NotificationResult) :
    NotificationResult × Bool :=
  let status :=
    if status.BotPR && !opts.SkipPRsFromBots then { status with Deleted := true } else status
  let status :=
    if status.ClosedPR && !opts.SkipClosedPRs then { status with Deleted := true } else status
  let status :=
    if status.Read then { status with Deleted := true } else status
  (status, status.Deleted && !opts.DryRun)

/-- The full per-item pipeline: enrichment followed by filter-delete. -/
def processNotification (opts : Options) (prService : String → PullRequest)
    (notification : Notification) : NotificationResult :=
  (deleteNotification opts (tagNotification opts prService notification).1).1

/-- The enrichment stage as a transformation of the whole input list. -/
def tagStage (opts : Options) (prService : String → PullRequest)
    (ns : List Notification) : List NotificationResult :=
  ns.map (fun n => (tagNotification opts prService n).1)

/-- The filter-delete stage as a transformation of the whole status list. -/
def deleteStage (opts : Options) (rs : List NotificationResult) :
    List NotificationResult :=
  rs.map (fun r => (deleteNotification opts r).1)

/-- `ProcessNotifications` followed by draining `results`
(client.go lines 118-141), as the composite list transformation: every
notification passes through a `tagNotifications` worker and then a
`deleteNotifications` worker.  The worker pools process items in a
nondeterministic order; the theorems quantify over that order through
`List.Perm` reorderings of the stage inputs. -/
def ProcessNotifications (opts : Options) (prService : String → PullRequest)
    (ns : List Notification) : List NotificationResult :=
  deleteStage opts (tagStage opts prService ns)

/-! Concrete fixtures used by counterexamples and witnesses. -/

/-- A minimal notification with the given id, unread flag and subject kind. -/
def mkN (id : String) (unread : Bool) (kind : String) : Notification :=
  { Id := id, Reason := "subscribed", Url := "threads/" ++ id, Unread := unread
    UpdatedAt := "2024-01-01T00:00:00Z", Repository := { FullName := "acme/repo" }
    Subject := { Title := "t" ++ id, Url := "subjects/" ++ id, type' := kind } }

def nu1 : Notification := mkN "1" true "Issue"
def nr1 : Notification := mkN "2" false "Issue"
def nr2 : Notification := mkN "3" false "Issue"
def nu2 : Notification := mkN "4" true "Issue"
def nr3 : Notification := mkN "5" false "Issue"
def nr4 : Notification := mkN "6" false "Issue"
def nr5 : Notification := mkN "7" false "Issue"
def nr6 : Notification := mkN "8" false "Issue"

/-- Options with `halt-after = 2` and everything else off, 4 workers. -/
def opts_c1 : Options :=
  { SkipPRsFromBots := false, SkipClosedPRs := false, SkipReadNotifications := false
    DryRun := false, NumWorkers := 4, HaltAfter := 2 }

/-- Two pages: the first carries the unread/read/read/unread/read/read/read
sequence of the halt-heuristic scenario and a next-page link; the second
would supply one more notification. -/
def pages_c1 : List Response :=
  [ { batch := [nu1, nr1, nr2, nu2, nr3, nr4, nr5], links := [("page2", "next")] }
  , { batch := [nr6], links := [] } ]

/-- A pull-request notification whose subject is a pull request. -/
def nPRbot : Notification := mkN "9" true "PullRequest"

/-- A detail service answering every lookup with an open, bot-authored PR. -/
def prBot : String → PullRequest :=
  fun _ => { State := "open", User := { Login := "app/dependabot", type' := "Bot" } }

/-- `opts_c1` with `skip-read` switched on. -/
def opts_sr : Options := { opts_c1 with SkipReadNotifications := true }

/-- `opts_c1` with `halt-after = 0`. -/
def opts_h0 : Options := { opts_c1 with HaltAfter := 0 }

/-! Helper lemmas shared by the claim theorems. -/

lemma deleteNotification_Deleted (opts : Options) (status : NotificationResult) :
    (deleteNotification opts status).1.Deleted =
      (status.Deleted || status.BotPR && !opts.SkipPRsFromBots ||
       status.ClosedPR && !opts.SkipClosedPRs || status.Read && !opts.SkipReadNotifications) := by
  unfold deleteNotification
  cases hb : status.BotPR <;> cases hc : status.ClosedPR <;> cases hr : status.Read <;>
    cases opts.SkipPRsFromBots <;> cases opts.SkipClosedPRs <;>
    cases opts.SkipReadNotifications <;> simp [hb, hc, hr]

lemma deleteNotificationUnguardedRead_Deleted (opts : Options) (status : NotificationResult) :
    (deleteNotificationUnguardedRead opts status).1.Deleted =
      (status.Deleted || status.BotPR && !opts.SkipPRsFromBots ||
       status.ClosedPR && !opts.SkipClosedPRs || status.Read) := by
  unfold deleteNotificationUnguardedRead
  cases hb : status.BotPR <;> cases hc : status.ClosedPR <;> cases hr : status.Read <;>
    cases opts.SkipPRsFromBots <;> cases opts.SkipClosedPRs <;> simp [hb, hc, hr]

lemma deleteNotification_preserves (opts : Options) (status : NotificationResult) :
    (deleteNotification opts status).1.Notification = status.Notification ∧
    (deleteNotification opts status).1.PR = status.PR ∧
    (deleteNotification opts status).1.BotPR = status.BotPR ∧
    (deleteNotification opts status).1.ClosedPR = status.ClosedPR ∧
    (deleteNotification opts status).1.Read = status.Read := by
  unfold deleteNotification
  cases hb : status.BotPR <;> cases hc : status.ClosedPR <;> cases hr : status.Read <;>
    cases opts.SkipPRsFromBots <;> cases opts.SkipClosedPRs <;>
    cases opts.SkipReadNotifications <;> simp [hb, hc, hr]

lemma tagNotification_Read (opts : Options) (prService : String → PullRequest)
    (n : Notification) :
    (tagNotification opts prService n).1.Read = (!n.Unread && !opts.SkipReadNotifications) := by
  unfold tagNotification
  cases hu : n.Unread <;> cases hs : opts.SkipReadNotifications <;>
    split <;> split <;> simp_all

lemma tagNotification_Deleted (opts : Options) (prService : String → PullRequest)
    (n : Notification) : (tagNotification opts prService n).1.Deleted = false := by
  unfold tagNotification
  cases hu : n.Unread <;> cases hs : opts.SkipReadNotifications <;>
    split <;> split <;> simp_all

lemma tagNotification_skipBots (opts : Options) (b : Bool)
    (prService : String → PullRequest) (n : Notification) :
    tagNotification { opts with SkipPRsFromBots := b } prService n =
      tagNotification opts prService n := rfl

lemma processBatch_append (h : Int) (b1 b2 : List Notification) : ∀ s : Int,
    processBatch h s (b1 ++ b2) =
      if (processBatch h s b1).2.2 then processBatch h s b1
      else ((processBatch h s b1).1 ++ (processBatch h (processBatch h s b1).2.1 b2).1,
            (processBatch h (processBatch h s b1).2.1 b2).2) := by
  induction b1 with
  | nil => intro s; simp [processBatch]
  | cons n rest ih =>
    intro s
    by_cases hu : n.Unread = true
    · simp only [List.cons_append, processBatch, hu, if_true, List.append_eq]
      rw [ih 0]
      split <;> simp
    · simp only [List.cons_append, processBatch, hu, if_false, Bool.false_eq_true,
        List.append_eq]
      by_cases hh : h > 0 ∧ s + 1 ≥ h
      · simp [hh]
      · simp only [hh, if_false]
        rw [ih (s + 1)]
        split <;> simp

lemma processBatch_nonpos (h : Int) (hh : h ≤ 0) (ns : List Notification) : ∀ s : Int,
    (processBatch h s ns).1 = ns ∧ (processBatch h s ns).2.2 = false := by
  induction ns with
  | nil => intro s; simp [processBatch]
  | cons n rest ih =>
    intro s
    by_cases hu : n.Unread = true
    · simp [processBatch, hu, ih 0]
    · have hcond : ¬(h > 0 ∧ s + 1 ≥ h) := by
        rintro ⟨h1, _⟩; exact absurd hh (not_le.mpr h1)
      simp [processBatch, hu, hcond, ih (s + 1)]

lemma fetchGo_flat (h : Int) (pages : List Response) : ∀ s : Int,
    fetchGo h s pages =
      (processBatch h s ((followedPages pages).map Response.batch).flatten).1 := by
  induction pages with
  | nil => intro s; simp [fetchGo, followedPages, processBatch]
  | cons r rest ih =>
    intro s
    by_cases hn : (findNextPage r.links).2 = true
    · simp only [fetchGo, followedPages, hn, if_true, List.map_cons, List.flatten_cons]
      rw [processBatch_append]
      split
      · simp_all
      · simp_all [ih]
    · simp [fetchGo, followedPages, hn]

/-! Claim theorems. -/

/-- C1 (counterexample): with `halt-after = 2` and the response sequence
unread, read, read, unread, read, read, read (plus a further page), the
fetcher accepts only the first 2 notifications, not the first 3 the claim
states: the `break loadNotifications` fires before the `append`, so the
read notification that completes the streak is discarded. -/
theorem C1_counterexample :
    FetchNotifications opts_c1 pages_c1 = [nu1, nr1] ∧
    (FetchNotifications opts_c1 pages_c1).length ≠ 3 := by
  decide

/-- C1 (amended): with `halt-after = 2` and a first batch starting
unread, read, read, the fetcher stops after accepting exactly the first 2
notifications — the halting read item is dropped — regardless of how many
further notifications in the batch or further pages the service supplies. -/
theorem C1_theorem (tail : List Notification) (links : List (String × String))
    (more : List Response) :
    FetchNotifications opts_c1
        ({ batch := nu1 :: nr1 :: nr2 :: tail, links := links } :: more) = [nu1, nr1] := by
  simp [FetchNotifications, fetchGo, processBatch, opts_c1, nu1, nr1, nr2, mkN]

/-- C2 (counterexample): `NewClient` creates `results` with
`make(chan NotificationResult)` — an unbuffered channel — so with 4 workers
the capacity of the results queue is 0, not the worker count. -/
theorem C2_counterexample :
    (NewClient opts_c1).resultsCap ≠ opts_c1.NumWorkers := by
  decide

/-- C2 (amended): `NewClient` allocates the notification input queue and the
status queue with capacity equal to the configured worker count, but the
results queue unbuffered (capacity 0). -/
theorem C2_theorem (opts : Options) :
    (NewClient opts).inputCap = opts.NumWorkers ∧
    (NewClient opts).statusesCap = opts.NumWorkers ∧
    (NewClient opts).resultsCap = 0 :=
  ⟨rfl, rfl, rfl⟩

/-- C3: the filter-delete stage emits
`Deleted = (BotPR && !skip-bots) || (ClosedPR && !skip-closed) || (Read && !skip-read)`
for every result produced by the enrichment stage; and the concrete
bot-authored, open, unread PR notification with all skip flags false gets
`Deleted = true` via the bot clause alone. -/
theorem C3_theorem :
    (∀ (opts : Options) (prService : String → PullRequest) (n : Notification),
      (processNotification opts prService n).Deleted =
        ((tagNotification opts prService n).1.BotPR && !opts.SkipPRsFromBots ||
         (tagNotification opts prService n).1.ClosedPR && !opts.SkipClosedPRs ||
         (tagNotification opts prService n).1.Read && !opts.SkipReadNotifications)) ∧
    ((tagNotification opts_c1 prBot nPRbot).1.BotPR = true ∧
     (tagNotification opts_c1 prBot nPRbot).1.ClosedPR = false ∧
     (tagNotification opts_c1 prBot nPRbot).1.Read = false ∧
     (processNotification opts_c1 prBot nPRbot).Deleted = true) := by
  constructor
  · intro opts prService n
    simp [processNotification, deleteNotification_Deleted, tagNotification_Deleted]
  · decide

/-- C5: with dry-run on, the filter-delete stage issues no delete call, and
the emitted result (its `Deleted` flag included) is identical to the one
emitted with dry-run off and all other inputs equal. -/
theorem C5_theorem (opts : Options) (status : NotificationResult) :
    (deleteNotification { opts with DryRun := true } status).2 = false ∧
    (deleteNotification { opts with DryRun := true } status).1 =
      (deleteNotification { opts with DryRun := false } status).1 := by
  constructor
  · simp [deleteNotification]
  · rfl

/-- C6: the enrichment stage emits `Read = true` iff the unread flag of the
notification is false and the skip-read option is false. -/
theorem C6_theorem (opts : Options) (prService : String → PullRequest)
    (n : Notification) :
    (tagNotification opts prService n).1.Read =
      (!n.Unread && !opts.SkipReadNotifications) :=
  tagNotification_Read opts prService n

/-- C7: for a notification whose subject kind is not `PullRequest`, the
enrichment stage performs no detail fetch and emits
`BotPR = false` and `ClosedPR = false`. -/
theorem C7_theorem (opts : Options) (prService : String → PullRequest)
    (n : Notification) (h : n.Subject.type' ≠ "PullRequest") :
    (tagNotification opts prService n).2 = false ∧
    (tagNotification opts prService n).1.BotPR = false ∧
    (tagNotification opts prService n).1.ClosedPR = false := by
  unfold tagNotification
  simp only [if_neg h]
  split <;> simp

/-- C7 witness at the concrete subject kind `Issue`. -/
theorem C7_witness :
    nu1.Subject.type' ≠ "PullRequest" ∧
    ((tagNotification opts_c1 prBot nu1).2 = false ∧
     (tagNotification opts_c1 prBot nu1).1.BotPR = false ∧
     (tagNotification opts_c1 prBot nu1).1.ClosedPR = false) :=
  ⟨by decide, C7_theorem opts_c1 prBot nu1 (by decide)⟩

/-- C8: toggling only `skip-bots` leaves the `BotPR`, `ClosedPR` and `Read`
flags of every pipeline result unchanged; only `Deleted` may differ. -/
theorem C8_theorem (opts : Options) (b : Bool) (prService : String → PullRequest)
    (n : Notification) :
    (processNotification { opts with SkipPRsFromBots := b } prService n).BotPR =
      (processNotification opts prService n).BotPR ∧
    (processNotification { opts with SkipPRsFromBots := b } prService n).ClosedPR =
      (processNotification opts prService n).ClosedPR ∧
    (processNotification { opts with SkipPRsFromBots := b } prService n).Read =
      (processNotification opts prService n).Read := by
  unfold processNotification
  rw [tagNotification_skipBots]
  refine ⟨?_, ?_, ?_⟩
  · rw [(deleteNotification_preserves _ _).2.2.1, (deleteNotification_preserves _ _).2.2.1]
  · rw [(deleteNotification_preserves _ _).2.2.2.1, (deleteNotification_preserves _ _).2.2.2.1]
  · rw [(deleteNotification_preserves _ _).2.2.2.2, (deleteNotification_preserves _ _).2.2.2.2]

/-- C10: every enrichment result satisfies `Read = true → skip-read = false`,
so the `!skip-read` guard in the filter-delete read clause is redundant on
pipeline-produced results, and with `skip-read = true` no notification is
deleted on account of being read. -/
theorem C10_theorem (opts : Options) (prService : String → PullRequest)
    (n : Notification) :
    ((tagNotification opts prService n).1.Read = true →
      opts.SkipReadNotifications = false) ∧
    (deleteNotification opts (tagNotification opts prService n).1).1.Deleted =
      (deleteNotificationUnguardedRead opts (tagNotification opts prService n).1).1.Deleted ∧
    (opts.SkipReadNotifications = true →
      (deleteNotification opts (tagNotification opts prService n).1).1.Deleted =
        ((tagNotification opts prService n).1.BotPR && !opts.SkipPRsFromBots ||
         (tagNotification opts prService n).1.ClosedPR && !opts.SkipClosedPRs)) := by
  refine ⟨?_, ?_, ?_⟩
  · intro h
    rw [tagNotification_Read] at h
    cases hs : opts.SkipReadNotifications
    · rfl
    · rw [hs] at h
      simp at h
  · rw [deleteNotification_Deleted, deleteNotificationUnguardedRead_Deleted,
        tagNotification_Deleted, tagNotification_Read]
    cases hs : opts.SkipReadNotifications <;> simp [hs]
  · intro hs
    rw [deleteNotification_Deleted, tagNotification_Deleted, tagNotification_Read, hs]
    simp

/-- C10 witness: the invariant at a read notification with skip-read off,
and the inertness of the read clause with skip-read on. -/
theorem C10_witness :
    opts_c1.SkipReadNotifications = false ∧
    (deleteNotification opts_sr (tagNotification opts_sr prBot nr1).1).1.Deleted =
      ((tagNotification opts_sr prBot nr1).1.BotPR && !opts_sr.SkipPRsFromBots ||
       (tagNotification opts_sr prBot nr1).1.ClosedPR && !opts_sr.SkipClosedPRs) :=
  ⟨(C10_theorem opts_c1 prBot nr1).1 (by decide),
   (C10_theorem opts_sr prBot nr1).2.2 rfl⟩

/-- C4: exactly one result per fetched notification, for every processing
order of the two worker pools: whatever permutation of the input the
enrichment pool consumes, and whatever permutation of the statuses the
filter-delete pool consumes, the drained output has exactly as many
results as there were input notifications. -/
theorem C4_theorem (opts : Options) (prService : String → PullRequest)
    (ns sched : List Notification) (mid : List NotificationResult)
    (h1 : sched.Perm ns) (h2 : mid.Perm (tagStage opts prService sched)) :
    (deleteStage opts mid).length = ns.length ∧
    (ProcessNotifications opts prService ns).length = ns.length := by
  constructor
  · rw [deleteStage, List.length_map, h2.length_eq, tagStage, List.length_map, h1.length_eq]
  · rw [ProcessNotifications, deleteStage, List.length_map, tagStage, List.length_map]

/-- C4 witness: two notifications processed in swapped order still yield
exactly two results. -/
theorem C4_witness :
    (deleteStage opts_c1 (tagStage opts_c1 prBot [nr1, nu1])).length =
      ([nu1, nr1] : List Notification).length ∧
    (ProcessNotifications opts_c1 prBot [nu1, nr1]).length =
      ([nu1, nr1] : List Notification).length :=
  C4_theorem opts_c1 prBot [nu1, nr1] [nr1, nu1] (tagStage opts_c1 prBot [nr1, nu1])
    (List.Perm.swap nu1 nr1 []) (List.Perm.refl _)

/-- C9: the read streak is a running counter over the whole notification
stream — an unread notification resets it to 0 regardless of its previous
value, and fetching a chain of pages behaves exactly like processing the
concatenation of the batches of the followed pages with one continuous counter —
and with `halt-after = 0` the fetcher never halts early: it accepts every
notification of every page up to the first response with no rel-next
link. -/
theorem C9_theorem :
    (∀ (h s : Int) (n : Notification) (rest : List Notification), n.Unread = true →
      processBatch h s (n :: rest) =
        (n :: (processBatch h 0 rest).1, (processBatch h 0 rest).2)) ∧
    (∀ (opts : Options) (pages : List Response),
      FetchNotifications opts pages =
        (processBatch opts.HaltAfter 0 ((followedPages pages).map Response.batch).flatten).1) ∧
    (∀ (opts : Options) (pages : List Response), opts.HaltAfter = 0 →
      FetchNotifications opts pages = ((followedPages pages).map Response.batch).flatten) := by
  refine ⟨?_, ?_, ?_⟩
  · intro h s n rest hu
    simp [processBatch, hu]
  · intro opts pages
    exact fetchGo_flat opts.HaltAfter pages 0
  · intro opts pages h0
    rw [FetchNotifications, fetchGo_flat, h0]
    exact (processBatch_nonpos 0 le_rfl _ 0).1

/-- C9 witness: the streak reset at a concrete unread notification with a
nonzero prior streak, and full fetching of the concrete two-page chain when
`halt-after = 0`. -/
theorem C9_witness :
    (processBatch 3 7 (nu1 :: [nr1]) =
      (nu1 :: (processBatch 3 0 [nr1]).1, (processBatch 3 0 [nr1]).2)) ∧
    (FetchNotifications opts_h0 pages_c1 =
      ((followedPages pages_c1).map Response.batch).flatten) :=
  ⟨C9_theorem.1 3 7 nu1 [nr1] rfl, C9_theorem.2.2 opts_h0 pages_c1 rfl⟩

end GhFlush
